import Mathlib

/-!
Verification of the ticket-lifecycle and reaction-role subsystem of the
`snub` Discord bot (`src/cogs/tickets.py`, `src/cogs/reactionroles.py`).

The registry state kept in memory by the `Tickets` cog is the JSON document
`{"ticket_counter": int, "active_tickets": {...}, "closed_tickets": {...}}`;
we embed it as a structure over association lists (Python `dict`s preserve
insertion order; assignment overwrites in place, `del` removes the key).
Interaction with the chat platform is modelled by explicit parameters: the
set of channel ids that still resolve in the guild, the acting user's id,
the wall-clock timestamp strings, and (for creation) the channel id granted
by the platform, `none` meaning `create_text_channel` raised.
-/

namespace Snub

/-- One ticket record, the value stored under a ticket id in the JSON
document (`src/cogs/tickets.py`, creation at lines 96-102 / 215-221). -/
structure TicketRecord where
  user_id : String
  channel_id : Nat
  issue : String
  created_at : String
  status : String
  claimed_by : Option Nat := none
  claimed_at : Option String := none
  closed_by : Option Nat := none
  closed_at : Option String := none
  reopened_by : Option Nat := none
  reopened_at : Option String := none
deriving DecidableEq

/-- The whole ticket document (`self.ticket_data`). -/
structure TicketData where
  ticket_counter : Nat
  active_tickets : List (String × TicketRecord)
  closed_tickets : List (String × TicketRecord)
deriving DecidableEq

/-- The fresh document created by `_load_ticket_data` when no file exists:
`{"ticket_counter": 0, "active_tickets": {}, "closed_tickets": {}}`. -/
def defaultTicketData : TicketData := ⟨0, [], []⟩

/-- Python dict assignment `d[k] = v`: overwrite in place if the key is
present, else append at the end (dicts preserve insertion order). -/
def dictInsert {α : Type} (k : String) (v : α) : List (String × α) → List (String × α)
  | [] => [(k, v)]
  | p :: t => if p.1 = k then (k, v) :: t else p :: dictInsert k v t

/-- Python `del d[k]`. -/
def dictRemove {α : Type} (k : String) (d : List (String × α)) : List (String × α) :=
  d.filter (fun p => p.1 ≠ k)

/-- The keys of a dict, in order. -/
def keysOf {α : Type} (d : List (String × α)) : List String := d.map Prod.fst

/-- The user-visible response each ticket operation ends with (the
`interaction.response.send_message` call it reaches). -/
inductive TicketMsg where
  /-- "You already have an open ticket! Please use that one instead." -/
  | duplicateActive
  /-- "Ticket created! Check {channel.mention}" -/
  | createdOk (ticketId : String)
  /-- `create_text_channel` raised; the generic error response of the
  `except` block at the bottom of `create_ticket`. -/
  | createFailed
  /-- "This ticket no longer exists." (guards of close/claim) -/
  | ticketNoLongerExists
  /-- "The ticket channel no longer exists." (close/reopen channel check) -/
  | channelNoLongerExists
  /-- "This ticket no longer exists or is not closed." (delete/reopen guard) -/
  | notClosedOrMissing
  /-- The "Ticket Closed" embed. -/
  | closedOk (ticketId : String)
  /-- The "Ticket Claimed" embed. -/
  | claimedOk (ticketId : String)
  /-- The "Ticket Deleted" embed. -/
  | deletedOk (ticketId : String)
  /-- The "Ticket Reopened" embed. -/
  | reopenedOk (ticketId : String)
deriving DecidableEq

/-- Whether the message is one of the success confirmations; these are
exactly the paths on which the source calls `_save_ticket_data`. -/
def TicketMsg.isSuccess : TicketMsg → Bool
  | .createdOk _ | .closedOk _ | .claimedOk _ | .deletedOk _ | .reopenedOk _ => true
  | _ => false

/-- The duplicate-check loop of `create_ticket` (lines 182-188):
`for ticket_id, ticket in active_tickets.items(): if ticket["user_id"] == user_id`. -/
def hasActiveTicketFor (d : TicketData) (u : String) : Bool :=
  d.active_tickets.any (fun p => p.2.user_id = u)

/-- `f"ticket-{ticket_number}"`. -/
def ticketIdStr (n : Nat) : String := "ticket-" ++ Nat.repr n

/-- `/ticket` slash command (`create_ticket`, lines 178-264), restricted to
its effect on the registry and its user-visible response.  `chanResult` is
the outcome of `guild.create_text_channel`: `some ch` grants channel id
`ch`, `none` means the call raised, in which case the `except` handler
reports an error — note the in-memory counter increment (line 190) is not
rolled back, though nothing is saved to disk. -/
def create_ticket (d : TicketData) (u issue createdAt : String) (chanResult : Option Nat) :
    TicketData × TicketMsg :=
  if hasActiveTicketFor d u then (d, .duplicateActive)
  else
    let counter := d.ticket_counter + 1
    let tid := ticketIdStr counter
    let d1 : TicketData := { d with ticket_counter := counter }
    match chanResult with
    | none => (d1, .createFailed)
    | some ch =>
      let r : TicketRecord :=
        { user_id := u, channel_id := ch, issue := issue
          created_at := createdAt, status := "open" }
      ({ d1 with active_tickets := dictInsert tid r d1.active_tickets }, .createdOk tid)

/-- `process_ticket_modal` (lines 59-155) performs the identical registry
mutation as `create_ticket`; only the Discord plumbing around it differs. -/
def process_ticket_modal := create_ticket

/-- `close_ticket` (lines 295-360): guard on membership in
`active_tickets`; then `interaction.guild.get_channel` — if the backing
channel is gone the handler returns before touching the record; otherwise
set `status`/`closed_by`/`closed_at`, move the record to `closed_tickets`
and save.  `chans` is the set of channel ids resolving in the guild. -/
def close_ticket (chans : List Nat) (d : TicketData) (actor : Nat) (tid now : String) :
    TicketData × TicketMsg :=
  match d.active_tickets.lookup tid with
  | none => (d, .ticketNoLongerExists)
  | some t =>
    if t.channel_id ∈ chans then
      let t' : TicketRecord := { t with status := "closed", closed_by := some actor, closed_at := some now }
      ({ d with active_tickets := dictRemove tid d.active_tickets
                closed_tickets := dictInsert tid t' d.closed_tickets }, .closedOk tid)
    else (d, .channelNoLongerExists)

/-- `claim_ticket` (lines 362-410): guard on membership in
`active_tickets`; sets `claimed_by`/`claimed_at` in place and saves.  The
channel is consulted only for the webhook mention, never for the record. -/
def claim_ticket (d : TicketData) (actor : Nat) (tid now : String) :
    TicketData × TicketMsg :=
  match d.active_tickets.lookup tid with
  | none => (d, .ticketNoLongerExists)
  | some t =>
    let t' : TicketRecord := { t with claimed_by := some actor, claimed_at := some now }
    ({ d with active_tickets := dictInsert tid t' d.active_tickets }, .claimedOk tid)

/-- `delete_ticket` (lines 412-455): guard on membership in
`closed_tickets`; removes the record and saves.  The delayed channel
deletion is a best-effort external side effect outside the registry. -/
def delete_ticket (d : TicketData) (tid : String) : TicketData × TicketMsg :=
  match d.closed_tickets.lookup tid with
  | none => (d, .notClosedOrMissing)
  | some _ =>
    ({ d with closed_tickets := dictRemove tid d.closed_tickets }, .deletedOk tid)

/-- `reopen_ticket` (lines 457-522): guard on membership in
`closed_tickets`; then the channel check — a missing channel aborts before
any record mutation; otherwise set `status`/`reopened_by`/`reopened_at`,
move the record back to `active_tickets` and save. -/
def reopen_ticket (chans : List Nat) (d : TicketData) (actor : Nat) (tid now : String) :
    TicketData × TicketMsg :=
  match d.closed_tickets.lookup tid with
  | none => (d, .notClosedOrMissing)
  | some t =>
    if t.channel_id ∈ chans then
      let t' : TicketRecord := { t with status := "open", reopened_by := some actor, reopened_at := some now }
      ({ d with active_tickets := dictInsert tid t' d.active_tickets
                closed_tickets := dictRemove tid d.closed_tickets }, .reopenedOk tid)
    else (d, .channelNoLongerExists)

/-- `_save_ticket_data` (lines 287-293): writes the in-memory document to
disk; any exception is caught and only printed, so control always returns
to the caller.  `writable` says whether the write succeeds; the function
yields the resulting on-disk document. -/
def save_ticket_data (writable : Bool) (mem disk : TicketData) : TicketData :=
  if writable then mem else disk

/-- Runs one registry operation against the pair (in-memory document,
on-disk document).  The source calls `_save_ticket_data` exactly on the
paths that end in a success confirmation. -/
def runWithStore (writable : Bool) (disk : TicketData) (r : TicketData × TicketMsg) :
    TicketData × TicketData × TicketMsg :=
  if r.2.isSuccess then (r.1, save_ticket_data writable r.1 disk, r.2)
  else (r.1, disk, r.2)

/-- One handler turn mutating the in-memory registry, with the external
world (channel set, actor, timestamps, granted channel) arbitrary. -/
inductive TicketStep : TicketData → TicketData → Prop where
  | create (d : TicketData) (u issue createdAt : String) (ch : Option Nat) :
      TicketStep d (create_ticket d u issue createdAt ch).1
  | close (chans : List Nat) (d : TicketData) (actor : Nat) (tid now : String) :
      TicketStep d (close_ticket chans d actor tid now).1
  | claim (d : TicketData) (actor : Nat) (tid now : String) :
      TicketStep d (claim_ticket d actor tid now).1
  | delete (d : TicketData) (tid : String) :
      TicketStep d (delete_ticket d tid).1
  | reopen (chans : List Nat) (d : TicketData) (actor : Nat) (tid now : String) :
      TicketStep d (reopen_ticket chans d actor tid now).1

/-- Registry states reachable from the fresh document through handler turns. -/
inductive TicketReachable : TicketData → Prop where
  | init : TicketReachable defaultTicketData
  | step {d d' : TicketData} : TicketReachable d → TicketStep d d' → TicketReachable d'

/-- Invariant of the registry document: every key is a well-formed
`ticket-<N>` id with `N` within the counter, and no key lives in both
partitions at once. -/
structure TicketInv (d : TicketData) : Prop where
  boundedActive : ∀ k ∈ keysOf d.active_tickets,
    ∃ n, 1 ≤ n ∧ n ≤ d.ticket_counter ∧ k = ticketIdStr n
  boundedClosed : ∀ k ∈ keysOf d.closed_tickets,
    ∃ n, 1 ≤ n ∧ n ≤ d.ticket_counter ∧ k = ticketIdStr n
  disjointKeys : ∀ k, (d.active_tickets.lookup k).isSome = true →
    (d.closed_tickets.lookup k).isSome = true → False

/-! ### Reaction roles (`src/cogs/reactionroles.py`)

A guild's live roles are modelled as a lookup list from role id to role
name (`guild.get_role`); a member's current roles as a `Finset` of role
ids (Discord role membership is a set).  A stored category's `roles`
mapping is a list of entries `emoji_key ↦ [role_id, emoji_data]`, in
insertion order. -/

/-- The `[id, name, raw]` emoji descriptor stored with each role. -/
structure EmojiData where
  id : Option String
  name : String
  raw : String
deriving DecidableEq

/-- One entry of a category's `roles` dict: `emoji_key: [role_id, emoji_data]`
with `role_id` stored as a string (`str(role.id)`). -/
structure RoleEntry where
  emojiKey : String
  roleId : String
  emoji : EmojiData
deriving DecidableEq

/-- `guild.get_role(rid)`: the role's name if the role still exists. -/
def get_role (guild : List (Nat × String)) (rid : Nat) : Option String :=
  guild.lookup rid

/-- The value of one decimal digit character. -/
def digitVal (c : Char) : Option Nat :=
  if c = '0' then some 0 else if c = '1' then some 1 else if c = '2' then some 2
  else if c = '3' then some 3 else if c = '4' then some 4 else if c = '5' then some 5
  else if c = '6' then some 6 else if c = '7' then some 7 else if c = '8' then some 8
  else if c = '9' then some 9 else none

/-- Decimal accumulation over a character list. -/
def parseNatFrom (acc : Nat) : List Char → Option Nat
  | [] => some acc
  | c :: cs => match digitVal c with
    | none => none
    | some d => parseNatFrom (acc * 10 + d) cs

/-- Python's `int(s)` on the digit strings produced by `str(role.id)`. -/
def parseNatId (s : String) : Option Nat :=
  if s.data = [] then none else parseNatFrom 0 s.data

/-- `guild.get_role(int(role_id))` on the stored string id. -/
def resolveRoleId (guild : List (Nat × String)) (rid : String) : Option String :=
  match parseNatId rid with
  | none => none
  | some n => get_role guild n

/-- A rendered toggle button (emoji plus the `custom_id` wire string). -/
structure PanelButton where
  emoji : String
  customId : String
deriving DecidableEq

/-- `ReactionRoleView.__init__` (lines 12-27): one button per stored role,
with `custom_id = f"reaction_role:{emoji_key}:{role_id}"`; the guild is
never consulted at render time. -/
def reactionRoleViewButtons (rolesData : List RoleEntry) : List PanelButton :=
  rolesData.map fun e =>
    { emoji := e.emoji.raw, customId := "reaction_role:" ++ e.emojiKey ++ ":" ++ e.roleId }

/-- One dropdown option of the menu panel. -/
structure SelectOptionData where
  label : String
  description : String
  emoji : String
  value : String
deriving DecidableEq

/-- `ReactionRoleSelect.__init__` (lines 48-75): an option is appended only
when `guild.get_role(int(role_id))` still resolves at render time. -/
def reactionRoleSelectOptions (guild : List (Nat × String)) (rolesData : List RoleEntry) :
    List SelectOptionData :=
  rolesData.filterMap fun e =>
    match resolveRoleId guild e.roleId with
    | none => none
    | some name =>
      some { label := name, description := "Add or remove the role " ++ name
             emoji := e.emoji.raw, value := e.emojiKey ++ ":" ++ e.roleId }

/-- The response of a role-toggle interaction. -/
inductive RoleToggleMsg where
  /-- "Role not found. It may have been deleted." -/
  | roleGone
  /-- "Removed role: {role.name}" -/
  | removedRole (name : String)
  /-- "Added role: {role.name}" -/
  | addedRole (name : String)
deriving DecidableEq

/-- `ReactionRoleView.button_callback` (lines 29-44): resolve the role id
from the control's payload; if the role was deleted server-side answer
"Role not found"; else remove the role if the member has it, add it
otherwise. -/
def button_callback (guild : List (Nat × String)) (roleId : String) (memberRoles : Finset Nat) :
    Finset Nat × RoleToggleMsg :=
  match parseNatId roleId with
  | none => (memberRoles, .roleGone)
  | some rid =>
    match get_role guild rid with
    | none => (memberRoles, .roleGone)
    | some name =>
      if rid ∈ memberRoles then (memberRoles.erase rid, .removedRole name)
      else (insert rid memberRoles, .addedRole name)

/-- `ReactionRoleSelect.callback` (lines 77-92) performs the identical
membership toggle on the selected option's payload. -/
def select_callback := button_callback

/-- The membership-state component of a toggle click. -/
def toggleStateFn (guild : List (Nat × String)) (roleId : String) (m : Finset Nat) : Finset Nat :=
  (button_callback guild roleId m).1

/-! ### Concrete sample states used by witnesses and counterexamples -/

/-- A sample open ticket record of user "A" backed by channel 100. -/
def sampleRecord : TicketRecord :=
  { user_id := "A", channel_id := 100, issue := "billing question"
    created_at := "2026-01-01T00:00:00", status := "open" }

/-- A registry whose active partition holds `ticket-1` owned by "A". -/
def sampleActive : TicketData := ⟨1, [("ticket-1", sampleRecord)], []⟩

/-- `sampleRecord` after a close by staff member 9. -/
def sampleRecordClosed : TicketRecord :=
  { sampleRecord with status := "closed", closed_by := some 9, closed_at := some "t2" }

/-- A registry whose closed partition holds `ticket-1` after a close. -/
def sampleClosedData : TicketData := ⟨1, [], [("ticket-1", sampleRecordClosed)]⟩

/-- A guild holding exactly the role 7 named "Blue". -/
def sampleGuild : List (Nat × String) := [(7, "Blue")]

/-- A stored entry whose role 7 still exists in `sampleGuild`. -/
def sampleLiveEntry : RoleEntry := ⟨"g", "7", ⟨none, "g", "g"⟩⟩

/-- A stored entry whose role 8 was deleted from the guild. -/
def sampleDeadEntry : RoleEntry := ⟨"x", "8", ⟨none, "x", "x"⟩⟩

/-- A category's stored roles holding one live and one deleted role. -/
def sampleRolesData : List RoleEntry := [sampleLiveEntry, sampleDeadEntry]

/-- The four-step run create/close/create/reopen of the C1 analysis, step 1:
user "A" opens `ticket-1` in channel 100. -/
def c1Step1 : TicketData :=
  (create_ticket defaultTicketData "A" "billing question" "t1" (some 100)).1

/-- Step 2: staff 9 closes `ticket-1` (channel 100 still exists). -/
def c1Step2 : TicketData := (close_ticket [100] c1Step1 9 "ticket-1" "t2").1

/-- Step 3: user "A" opens `ticket-2` in channel 101 — allowed, since
`ticket-1` is no longer active. -/
def c1Step3 : TicketData := (create_ticket c1Step2 "A" "second issue" "t3" (some 101)).1

/-- Step 4: staff 9 reopens `ticket-1`; user "A" now owns two active tickets. -/
def c1Step4 : TicketData := (reopen_ticket [100] c1Step3 9 "ticket-1" "t4").1

/-! ### Association-list (Python dict) lemmas -/

theorem lookup_dictInsert_self {α : Type} (k : String) (v : α) (d : List (String × α)) :
    (dictInsert k v d).lookup k = some v := by
  induction d with
  | nil => simp [dictInsert, List.lookup]
  | cons p t ih =>
    by_cases h : p.1 = k
    · simp [dictInsert, h, List.lookup]
    · have hb : (k == p.1) = false := by simpa using fun e => h e.symm
      simp [dictInsert, h, List.lookup, hb, ih]

theorem lookup_dictInsert_ne {α : Type} (k k' : String) (v : α) (d : List (String × α))
    (h : k' ≠ k) : (dictInsert k v d).lookup k' = d.lookup k' := by
  induction d with
  | nil =>
    have hb : (k' == k) = false := by simpa using h
    simp [dictInsert, List.lookup, hb]
  | cons p t ih =>
    by_cases hp : p.1 = k
    · have h1 : (k' == k) = false := by simpa using h
      have h2 : (k' == p.1) = false := by simpa [hp] using h
      simp [dictInsert, hp, List.lookup, h1, h2]
    · simp only [dictInsert, hp, if_false, List.lookup]
      cases hpk : (k' == p.1) <;> simp [ih]

theorem lookup_dictRemove_self {α : Type} (k : String) (d : List (String × α)) :
    (dictRemove k d).lookup k = none := by
  induction d with
  | nil => simp [dictRemove, List.lookup]
  | cons p t ih =>
    by_cases h : p.1 = k
    · simpa [dictRemove, List.filter_cons, h] using ih
    · have hb : (k == p.1) = false := by simpa using fun e => h e.symm
      simpa [dictRemove, List.filter_cons, h, List.lookup, hb] using ih

theorem lookup_dictRemove_ne {α : Type} (k k' : String) (d : List (String × α))
    (h : k' ≠ k) : (dictRemove k d).lookup k' = d.lookup k' := by
  induction d with
  | nil => simp [dictRemove]
  | cons p t ih =>
    by_cases hp : p.1 = k
    · have hb : (k' == k) = false := by simpa using h
      simpa [dictRemove, List.filter_cons, hp, List.lookup, hb] using ih
    · simp only [dictRemove, List.filter_cons, decide_not, hp, decide_False, Bool.not_false,
        if_true, List.lookup]
      cases hpk : (k' == p.1)
      · simpa [dictRemove, hpk] using ih
      · simp [hpk]

theorem lookup_isSome_iff_mem_keysOf {α : Type} (k : String) (d : List (String × α)) :
    (d.lookup k).isSome = true ↔ k ∈ keysOf d := by
  induction d with
  | nil => simp [List.lookup, keysOf]
  | cons p t ih =>
    by_cases h : p.1 = k
    · simp [List.lookup, h, keysOf]
    · have hk : ¬k = p.1 := fun e => h e.symm
      have hb : (k == p.1) = false := by simpa using hk
      simp only [keysOf, List.map_cons, List.mem_cons] at ih ⊢
      simp [List.lookup, hb, hk, ih]

theorem mem_keysOf_dictInsert {α : Type} (k k' : String) (v : α) (d : List (String × α))
    (h : k' ∈ keysOf (dictInsert k v d)) : k' = k ∨ k' ∈ keysOf d := by
  induction d with
  | nil => simpa [dictInsert, keysOf] using h
  | cons p t ih =>
    by_cases hp : p.1 = k
    · simp only [dictInsert, hp, if_true, keysOf, List.map_cons, List.mem_cons] at h
      rcases h with h | h
      · exact Or.inl h
      · exact Or.inr (by simp [keysOf, List.mem_cons]; right; simpa [keysOf] using h)
    · simp only [dictInsert, hp, if_false, keysOf, List.map_cons, List.mem_cons] at h
      rcases h with h | h
      · exact Or.inr (by simp [keysOf, h])
      · rcases ih (by simpa [keysOf] using h) with h' | h'
        · exact Or.inl h'
        · exact Or.inr (by simp [keysOf]; right; simpa [keysOf] using h')

theorem mem_keysOf_dictRemove {α : Type} (k k' : String) (d : List (String × α))
    (h : k' ∈ keysOf (dictRemove k d)) : k' ∈ keysOf d := by
  simp only [keysOf, dictRemove, List.mem_map] at h ⊢
  rcases h with ⟨p, hp, rfl⟩
  exact ⟨p, (List.mem_filter.mp hp).1, rfl⟩

/-! ### Injectivity of the `ticket-<N>` id format

`Nat.repr` is `(Nat.toDigits 10 n).asString`; we connect `Nat.toDigits` to
`Nat.digits` and derive injectivity from `Nat.ofDigits_digits`. -/

theorem digitChar_inj_lt_ten :
    ∀ a < 10, ∀ b < 10, Nat.digitChar a = Nat.digitChar b → a = b := by decide

theorem toDigitsCore_eq_digits :
    ∀ (fuel n : Nat) (ds : List Char), 0 < n → n < 10 ^ fuel →
      Nat.toDigitsCore 10 fuel n ds = ((Nat.digits 10 n).map Nat.digitChar).reverse ++ ds := by
  intro fuel
  induction fuel with
  | zero => intro n ds hn hlt; simp at hlt; omega
  | succ f ih =>
    intro n ds hn hlt
    have hdig : Nat.digits 10 n = n % 10 :: Nat.digits 10 (n / 10) :=
      Nat.digits_def' (by norm_num) hn
    by_cases h : n / 10 = 0
    · have : Nat.digits 10 n = [n % 10] := by rw [hdig, h]; simp
      simp [Nat.toDigitsCore, h, this]
    · have hpos : 0 < n / 10 := Nat.pos_of_ne_zero h
      have hlt' : n / 10 < 10 ^ f := by
        rw [Nat.div_lt_iff_lt_mul (by norm_num)]
        calc n < 10 ^ (f + 1) := hlt
        _ = 10 ^ f * 10 := by ring
      have := ih (n / 10) (Nat.digitChar (n % 10) :: ds) hpos hlt'
      simp only [Nat.toDigitsCore, h, if_false]
      rw [this, hdig]
      simp [List.append_assoc]

theorem toDigits_eq_digits (n : Nat) (hn : 0 < n) :
    Nat.toDigits 10 n = ((Nat.digits 10 n).map Nat.digitChar).reverse := by
  have h1 : n < 10 ^ (n + 1) := by
    calc n < 10 ^ n := Nat.lt_pow_self (by norm_num) n
    _ ≤ 10 ^ (n + 1) := Nat.pow_le_pow_right (by norm_num) (Nat.le_succ n)
  simpa using toDigitsCore_eq_digits (n + 1) n [] hn h1

theorem map_digitChar_inj :
    ∀ l1 l2 : List Nat, (∀ x ∈ l1, x < 10) → (∀ x ∈ l2, x < 10) →
      l1.map Nat.digitChar = l2.map Nat.digitChar → l1 = l2 := by
  intro l1
  induction l1 with
  | nil => intro l2 _ _ h; cases l2 <;> simp_all
  | cons a t ih =>
    intro l2 h1 h2 h
    cases l2 with
    | nil => simp at h
    | cons b t2 =>
      simp only [List.map_cons, List.cons.injEq] at h
      have ha : a = b :=
        digitChar_inj_lt_ten a (h1 a (by simp)) b (h2 b (by simp)) h.1
      have ht : t = t2 :=
        ih t2 (fun x hx => h1 x (by simp [hx])) (fun x hx => h2 x (by simp [hx])) h.2
      rw [ha, ht]

theorem toDigits_ten_injective (m n : Nat) (h : Nat.toDigits 10 m = Nat.toDigits 10 n) :
    m = n := by
  rcases Nat.eq_zero_or_pos m with hm | hm <;> rcases Nat.eq_zero_or_pos n with hn | hn
  · omega
  · exfalso
    subst hm
    rw [toDigits_eq_digits n hn] at h
    have h' : (Nat.digits 10 n).map Nat.digitChar = ['0'] := by
      have := congrArg List.reverse h
      simpa using this.symm
    rcases hd : Nat.digits 10 n with _ | ⟨x, xs⟩
    · rw [hd] at h'; simp at h'
    · rw [hd] at h'
      cases xs with
      | nil =>
        simp only [List.map_cons, List.map_nil, List.cons.injEq] at h'
        have hx : x < 10 := Nat.digits_lt_base (by norm_num) (by rw [hd]; simp)
        have hx0 : x = 0 := digitChar_inj_lt_ten x hx 0 (by norm_num) (by simpa using h'.1)
        have := Nat.ofDigits_digits 10 n
        rw [hd, hx0] at this
        simp [Nat.ofDigits] at this
        omega
      | cons y ys => simp at h'
  · exfalso
    subst hn
    rw [toDigits_eq_digits m hm] at h
    have h' : (Nat.digits 10 m).map Nat.digitChar = ['0'] := by
      have := congrArg List.reverse h
      simpa using this
    rcases hd : Nat.digits 10 m with _ | ⟨x, xs⟩
    · rw [hd] at h'; simp at h'
    · rw [hd] at h'
      cases xs with
      | nil =>
        simp only [List.map_cons, List.map_nil, List.cons.injEq] at h'
        have hx : x < 10 := Nat.digits_lt_base (by norm_num) (by rw [hd]; simp)
        have hx0 : x = 0 := digitChar_inj_lt_ten x hx 0 (by norm_num) (by simpa using h'.1)
        have := Nat.ofDigits_digits 10 m
        rw [hd, hx0] at this
        simp [Nat.ofDigits] at this
        omega
      | cons y ys => simp at h'
  · rw [toDigits_eq_digits m hm, toDigits_eq_digits n hn] at h
    have h' := congrArg List.reverse h
    simp only [List.reverse_reverse] at h'
    have := map_digitChar_inj (Nat.digits 10 m) (Nat.digits 10 n)
      (fun x hx => Nat.digits_lt_base (by norm_num) hx)
      (fun x hx => Nat.digits_lt_base (by norm_num) hx) h'
    calc m = Nat.ofDigits 10 (Nat.digits 10 m) := (Nat.ofDigits_digits 10 m).symm
    _ = Nat.ofDigits 10 (Nat.digits 10 n) := by rw [this]
    _ = n := Nat.ofDigits_digits 10 n

theorem ticketIdStr_injective (m n : Nat) (h : ticketIdStr m = ticketIdStr n) : m = n := by
  apply toDigits_ten_injective
  have hd := congrArg String.data h
  simp only [ticketIdStr, String.data_append] at hd
  have : (Nat.repr m).data = (Nat.repr n).data := List.append_cancel_left hd
  simpa [Nat.repr, List.asString] using this

/-! ### Characterization of each operation's branches -/

theorem create_ticket_dup (d : TicketData) (u issue ca : String) (ch : Option Nat)
    (h : hasActiveTicketFor d u = true) :
    create_ticket d u issue ca ch = (d, .duplicateActive) := by
  simp [create_ticket, h]

theorem create_ticket_chanFail (d : TicketData) (u issue ca : String)
    (h : hasActiveTicketFor d u = false) :
    create_ticket d u issue ca none =
      ({ d with ticket_counter := d.ticket_counter + 1 }, .createFailed) := by
  simp [create_ticket, h]

theorem create_ticket_ok (d : TicketData) (u issue ca : String) (c : Nat)
    (h : hasActiveTicketFor d u = false) :
    create_ticket d u issue ca (some c) =
      ({ d with
          ticket_counter := d.ticket_counter + 1
          active_tickets := dictInsert (ticketIdStr (d.ticket_counter + 1))
            { user_id := u, channel_id := c, issue := issue, created_at := ca, status := "open" }
            d.active_tickets },
        .createdOk (ticketIdStr (d.ticket_counter + 1))) := by
  simp [create_ticket, h]

theorem close_ticket_notActive (chans : List Nat) (d : TicketData) (a : Nat) (tid now : String)
    (h : d.active_tickets.lookup tid = none) :
    close_ticket chans d a tid now = (d, .ticketNoLongerExists) := by
  simp [close_ticket, h]

theorem close_ticket_noChannel (chans : List Nat) (d : TicketData) (a : Nat) (tid now : String)
    (t : TicketRecord) (h : d.active_tickets.lookup tid = some t)
    (hc : t.channel_id ∉ chans) :
    close_ticket chans d a tid now = (d, .channelNoLongerExists) := by
  simp [close_ticket, h, hc]

theorem close_ticket_ok (chans : List Nat) (d : TicketData) (a : Nat) (tid now : String)
    (t : TicketRecord) (h : d.active_tickets.lookup tid = some t)
    (hc : t.channel_id ∈ chans) :
    close_ticket chans d a tid now =
      ({ d with
          active_tickets := dictRemove tid d.active_tickets
          closed_tickets := dictInsert tid
            { t with status := "closed", closed_by := some a, closed_at := some now }
            d.closed_tickets },
        .closedOk tid) := by
  simp [close_ticket, h, hc]

theorem claim_ticket_notActive (d : TicketData) (a : Nat) (tid now : String)
    (h : d.active_tickets.lookup tid = none) :
    claim_ticket d a tid now = (d, .ticketNoLongerExists) := by
  simp [claim_ticket, h]

theorem claim_ticket_ok (d : TicketData) (a : Nat) (tid now : String)
    (t : TicketRecord) (h : d.active_tickets.lookup tid = some t) :
    claim_ticket d a tid now =
      ({ d with
          active_tickets := dictInsert tid
            { t with claimed_by := some a, claimed_at := some now } d.active_tickets },
        .claimedOk tid) := by
  simp [claim_ticket, h]

theorem delete_ticket_notClosed (d : TicketData) (tid : String)
    (h : d.closed_tickets.lookup tid = none) :
    delete_ticket d tid = (d, .notClosedOrMissing) := by
  simp [delete_ticket, h]

theorem delete_ticket_ok (d : TicketData) (tid : String)
    (t : TicketRecord) (h : d.closed_tickets.lookup tid = some t) :
    delete_ticket d tid =
      ({ d with closed_tickets := dictRemove tid d.closed_tickets }, .deletedOk tid) := by
  simp [delete_ticket, h]

theorem reopen_ticket_notClosed (chans : List Nat) (d : TicketData) (a : Nat) (tid now : String)
    (h : d.closed_tickets.lookup tid = none) :
    reopen_ticket chans d a tid now = (d, .notClosedOrMissing) := by
  simp [reopen_ticket, h]

theorem reopen_ticket_noChannel (chans : List Nat) (d : TicketData) (a : Nat) (tid now : String)
    (t : TicketRecord) (h : d.closed_tickets.lookup tid = some t)
    (hc : t.channel_id ∉ chans) :
    reopen_ticket chans d a tid now = (d, .channelNoLongerExists) := by
  simp [reopen_ticket, h, hc]

theorem reopen_ticket_ok (chans : List Nat) (d : TicketData) (a : Nat) (tid now : String)
    (t : TicketRecord) (h : d.closed_tickets.lookup tid = some t)
    (hc : t.channel_id ∈ chans) :
    reopen_ticket chans d a tid now =
      ({ d with
          active_tickets := dictInsert tid
            { t with status := "open", reopened_by := some a, reopened_at := some now }
            d.active_tickets
          closed_tickets := dictRemove tid d.closed_tickets },
        .reopenedOk tid) := by
  simp [reopen_ticket, h, hc]

/-! ### The registry invariant -/

theorem inv_default : TicketInv defaultTicketData := by
  refine ⟨?_, ?_, ?_⟩ <;> simp [defaultTicketData, keysOf, List.lookup]

theorem fresh_id_not_active (d : TicketData) (h : TicketInv d) :
    ticketIdStr (d.ticket_counter + 1) ∉ keysOf d.active_tickets := by
  intro hmem
  obtain ⟨n, h1, h2, h3⟩ := h.boundedActive _ hmem
  have := ticketIdStr_injective _ _ h3
  omega

theorem fresh_id_not_closed (d : TicketData) (h : TicketInv d) :
    ticketIdStr (d.ticket_counter + 1) ∉ keysOf d.closed_tickets := by
  intro hmem
  obtain ⟨n, h1, h2, h3⟩ := h.boundedClosed _ hmem
  have := ticketIdStr_injective _ _ h3
  omega

theorem inv_create (d : TicketData) (u issue ca : String) (ch : Option Nat)
    (h : TicketInv d) : TicketInv (create_ticket d u issue ca ch).1 := by
  by_cases hdup : hasActiveTicketFor d u
  · rw [create_ticket_dup d u issue ca ch hdup]; exact h
  · rw [Bool.not_eq_true] at hdup
    cases ch with
    | none =>
      rw [create_ticket_chanFail d u issue ca hdup]
      dsimp only
      refine ⟨?_, ?_, h.disjointKeys⟩
      · intro k hk
        obtain ⟨n, h1, h2, h3⟩ := h.boundedActive k hk
        refine ⟨n, h1, ?_, h3⟩
        show n ≤ d.ticket_counter + 1
        omega
      · intro k hk
        obtain ⟨n, h1, h2, h3⟩ := h.boundedClosed k hk
        refine ⟨n, h1, ?_, h3⟩
        show n ≤ d.ticket_counter + 1
        omega
    | some c =>
      rw [create_ticket_ok d u issue ca c hdup]
      dsimp only
      refine ⟨?_, ?_, ?_⟩
      · intro k hk
        rcases mem_keysOf_dictInsert _ _ _ _ hk with rfl | hk'
        · refine ⟨d.ticket_counter + 1, by omega, ?_, rfl⟩
          show d.ticket_counter + 1 ≤ d.ticket_counter + 1
          omega
        · obtain ⟨n, h1, h2, h3⟩ := h.boundedActive k hk'
          refine ⟨n, h1, ?_, h3⟩
          show n ≤ d.ticket_counter + 1
          omega
      · intro k hk
        obtain ⟨n, h1, h2, h3⟩ := h.boundedClosed k hk
        refine ⟨n, h1, ?_, h3⟩
        show n ≤ d.ticket_counter + 1
        omega
      · intro k ha hc
        by_cases hk : k = ticketIdStr (d.ticket_counter + 1)
        · subst hk
          exact fresh_id_not_closed d h ((lookup_isSome_iff_mem_keysOf _ _).mp hc)
        · rw [lookup_dictInsert_ne _ _ _ _ hk] at ha
          exact h.disjointKeys k ha hc

theorem inv_close (chans : List Nat) (d : TicketData) (a : Nat) (tid now : String)
    (h : TicketInv d) : TicketInv (close_ticket chans d a tid now).1 := by
  cases hl : d.active_tickets.lookup tid with
  | none => rw [close_ticket_notActive chans d a tid now hl]; exact h
  | some t =>
    by_cases hc : t.channel_id ∈ chans
    · rw [close_ticket_ok chans d a tid now t hl hc]
      refine ⟨?_, ?_, ?_⟩
      · intro k hk
        exact h.boundedActive k (mem_keysOf_dictRemove _ _ _ hk)
      · intro k hk
        rcases mem_keysOf_dictInsert _ _ _ _ hk with rfl | hk'
        · exact h.boundedActive _ ((lookup_isSome_iff_mem_keysOf _ _).mp (by simp [hl]))
        · exact h.boundedClosed k hk'
      · intro k ha hcl
        by_cases hk : k = tid
        · subst hk; rw [lookup_dictRemove_self] at ha; simp at ha
        · rw [lookup_dictRemove_ne _ _ _ hk] at ha
          rw [lookup_dictInsert_ne _ _ _ _ hk] at hcl
          exact h.disjointKeys k ha hcl
    · rw [close_ticket_noChannel chans d a tid now t hl hc]; exact h

theorem inv_claim (d : TicketData) (a : Nat) (tid now : String)
    (h : TicketInv d) : TicketInv (claim_ticket d a tid now).1 := by
  cases hl : d.active_tickets.lookup tid with
  | none => rw [claim_ticket_notActive d a tid now hl]; exact h
  | some t =>
    rw [claim_ticket_ok d a tid now t hl]
    refine ⟨?_, h.boundedClosed, ?_⟩
    · intro k hk
      rcases mem_keysOf_dictInsert _ _ _ _ hk with rfl | hk'
      · exact h.boundedActive _ ((lookup_isSome_iff_mem_keysOf _ _).mp (by simp [hl]))
      · exact h.boundedActive k hk'
    · intro k ha hcl
      by_cases hk : k = tid
      · subst hk
        exact h.disjointKeys k (by simp [hl]) hcl
      · rw [lookup_dictInsert_ne _ _ _ _ hk] at ha
        exact h.disjointKeys k ha hcl

theorem inv_delete (d : TicketData) (tid : String)
    (h : TicketInv d) : TicketInv (delete_ticket d tid).1 := by
  cases hl : d.closed_tickets.lookup tid with
  | none => rw [delete_ticket_notClosed d tid hl]; exact h
  | some t =>
    rw [delete_ticket_ok d tid t hl]
    refine ⟨h.boundedActive, ?_, ?_⟩
    · intro k hk
      exact h.boundedClosed k (mem_keysOf_dictRemove _ _ _ hk)
    · intro k ha hcl
      by_cases hk : k = tid
      · subst hk; rw [lookup_dictRemove_self] at hcl; simp at hcl
      · rw [lookup_dictRemove_ne _ _ _ hk] at hcl
        exact h.disjointKeys k ha hcl

theorem inv_reopen (chans : List Nat) (d : TicketData) (a : Nat) (tid now : String)
    (h : TicketInv d) : TicketInv (reopen_ticket chans d a tid now).1 := by
  cases hl : d.closed_tickets.lookup tid with
  | none => rw [reopen_ticket_notClosed chans d a tid now hl]; exact h
  | some t =>
    by_cases hc : t.channel_id ∈ chans
    · rw [reopen_ticket_ok chans d a tid now t hl hc]
      refine ⟨?_, ?_, ?_⟩
      · intro k hk
        rcases mem_keysOf_dictInsert _ _ _ _ hk with rfl | hk'
        · exact h.boundedClosed _ ((lookup_isSome_iff_mem_keysOf _ _).mp (by simp [hl]))
        · exact h.boundedActive k hk'
      · intro k hk
        exact h.boundedClosed k (mem_keysOf_dictRemove _ _ _ hk)
      · intro k ha hcl
        by_cases hk : k = tid
        · subst hk; rw [lookup_dictRemove_self] at hcl; simp at hcl
        · rw [lookup_dictInsert_ne _ _ _ _ hk] at ha
          rw [lookup_dictRemove_ne _ _ _ hk] at hcl
          exact h.disjointKeys k ha hcl
    · rw [reopen_ticket_noChannel chans d a tid now t hl hc]; exact h

theorem inv_step {d d' : TicketData} (s : TicketStep d d') (h : TicketInv d) : TicketInv d' := by
  cases s with
  | create d u issue ca ch => exact inv_create d u issue ca ch h
  | close chans d a tid now => exact inv_close chans d a tid now h
  | claim d a tid now => exact inv_claim d a tid now h
  | delete d tid => exact inv_delete d tid h
  | reopen chans d a tid now => exact inv_reopen chans d a tid now h

theorem reachable_inv {d : TicketData} (h : TicketReachable d) : TicketInv d := by
  induction h with
  | init => exact inv_default
  | step _ s ih => exact inv_step s ih

theorem toggleStateFn_involutive (guild : List (Nat × String)) (roleId : String)
    (m : Finset Nat) : toggleStateFn guild roleId (toggleStateFn guild roleId m) = m := by
  cases h : parseNatId roleId with
  | none => simp [toggleStateFn, button_callback, h]
  | some rid =>
    cases hg : get_role guild rid with
    | none => simp [toggleStateFn, button_callback, h, hg]
    | some name =>
      by_cases hm : rid ∈ m
      · have h2 : rid ∉ m.erase rid := Finset.not_mem_erase rid m
        simp [toggleStateFn, button_callback, h, hg, hm, h2, Finset.insert_erase hm]
      · have h2 : rid ∈ insert rid m := Finset.mem_insert_self rid m
        simp [toggleStateFn, button_callback, h, hg, hm, h2, Finset.erase_insert hm]

theorem toggleStateFn_iterate_two_mul (guild : List (Nat × String)) (roleId : String)
    (m : Finset Nat) (N : Nat) : (toggleStateFn guild roleId)^[2 * N] m = m := by
  induction N with
  | zero => simp
  | succ n ih =>
    have he : 2 * (n + 1) = 2 * n + 2 := by ring
    rw [he, Function.iterate_add_apply]
    have h2 : (toggleStateFn guild roleId)^[2] m = m := by
      show toggleStateFn guild roleId (toggleStateFn guild roleId m) = m
      exact toggleStateFn_involutive guild roleId m
    rw [h2, ih]

theorem length_filterMap_lt_of_mem_none {α β : Type} (f : α → Option β) (l : List α)
    (a : α) (ha : a ∈ l) (hf : f a = none) : (l.filterMap f).length < l.length := by
  induction l with
  | nil => simp at ha
  | cons b t ih =>
    rcases List.mem_cons.mp ha with rfl | ha'
    · simp only [List.filterMap_cons, hf]
      exact Nat.lt_succ_of_le (List.length_filterMap_le f t)
    · cases hb : f b with
      | none =>
        simp only [List.filterMap_cons, hb]
        exact Nat.lt_succ_of_lt (ih ha')
      | some v =>
        simp only [List.filterMap_cons, hb, List.length_cons]
        exact Nat.succ_lt_succ (ih ha')

/-! ### Counter bookkeeping -/

theorem close_ticket_counter (chans : List Nat) (d : TicketData) (a : Nat) (tid now : String) :
    (close_ticket chans d a tid now).1.ticket_counter = d.ticket_counter := by
  cases hl : d.active_tickets.lookup tid with
  | none => rw [close_ticket_notActive chans d a tid now hl]
  | some t =>
    by_cases hc : t.channel_id ∈ chans
    · rw [close_ticket_ok chans d a tid now t hl hc]
    · rw [close_ticket_noChannel chans d a tid now t hl hc]

theorem reopen_ticket_counter (chans : List Nat) (d : TicketData) (a : Nat) (tid now : String) :
    (reopen_ticket chans d a tid now).1.ticket_counter = d.ticket_counter := by
  cases hl : d.closed_tickets.lookup tid with
  | none => rw [reopen_ticket_notClosed chans d a tid now hl]
  | some t =>
    by_cases hc : t.channel_id ∈ chans
    · rw [reopen_ticket_ok chans d a tid now t hl hc]
    · rw [reopen_ticket_noChannel chans d a tid now t hl hc]

theorem claim_ticket_counter (d : TicketData) (a : Nat) (tid now : String) :
    (claim_ticket d a tid now).1.ticket_counter = d.ticket_counter := by
  cases hl : d.active_tickets.lookup tid with
  | none => rw [claim_ticket_notActive d a tid now hl]
  | some t => rw [claim_ticket_ok d a tid now t hl]

theorem delete_ticket_counter (d : TicketData) (tid : String) :
    (delete_ticket d tid).1.ticket_counter = d.ticket_counter := by
  cases hl : d.closed_tickets.lookup tid with
  | none => rw [delete_ticket_notClosed d tid hl]
  | some t => rw [delete_ticket_ok d tid t hl]

theorem create_ticket_counter_incr (d : TicketData) (u issue ca : String) (ch : Option Nat)
    (h : hasActiveTicketFor d u = false) :
    (create_ticket d u issue ca ch).1.ticket_counter = d.ticket_counter + 1 := by
  cases ch with
  | none => rw [create_ticket_chanFail d u issue ca h]
  | some c => rw [create_ticket_ok d u issue ca c h]

theorem counter_le_step {d d' : TicketData} (s : TicketStep d d') :
    d.ticket_counter ≤ d'.ticket_counter := by
  cases s with
  | create _ u issue ca ch =>
    by_cases hdup : hasActiveTicketFor d u
    · rw [create_ticket_dup d u issue ca ch hdup]
    · rw [Bool.not_eq_true] at hdup
      rw [create_ticket_counter_incr d u issue ca ch hdup]
      omega
  | close chans _ a tid now => rw [close_ticket_counter]
  | claim _ a tid now => rw [claim_ticket_counter]
  | delete _ tid => rw [delete_ticket_counter]
  | reopen chans _ a tid now => rw [reopen_ticket_counter]

/-! ### Store plumbing -/

theorem runWithStore_mem (w : Bool) (disk : TicketData) (r : TicketData × TicketMsg) :
    (runWithStore w disk r).1 = r.1 := by
  by_cases hs : r.2.isSuccess <;> simp [runWithStore, hs]

theorem runWithStore_msg (w : Bool) (disk : TicketData) (r : TicketData × TicketMsg) :
    (runWithStore w disk r).2.2 = r.2 := by
  by_cases hs : r.2.isSuccess <;> simp [runWithStore, hs]

theorem runWithStore_disk_unwritable (disk : TicketData) (r : TicketData × TicketMsg) :
    (runWithStore false disk r).2.1 = disk := by
  by_cases hs : r.2.isSuccess <;> simp [runWithStore, hs, save_ticket_data]

/-! ### Claims -/

/-- C1, counterexample: the second half of the claim ("in every reachable
state, at most one ticket in the active partition has `userId == U`") is
false.  The run create("A") → close → create("A") → reopen("ticket-1") is
reachable, yet its final state holds two active tickets owned by "A",
because `reopen_ticket` never re-checks ownership. -/
theorem c1_two_active_tickets_reachable :
    TicketReachable c1Step4 ∧
    c1Step4.active_tickets.countP (fun p => p.2.user_id = "A") = 2 := by
  constructor
  · exact .step
      (.step
        (.step
          (.step .init (.create defaultTicketData "A" "billing question" "t1" (some 100)))
          (.close [100] c1Step1 9 "ticket-1" "t2"))
        (.create c1Step2 "A" "second issue" "t3" (some 101)))
      (.reopen [100] c1Step3 9 "ticket-1" "t4")
  · decide

/-- C1 (amended): if user `u` already owns a record in the active
partition, a create for `u` is rejected with the duplicate-ticket message
and the registry (counter, active, closed) is returned unchanged.  The
claimed consequence that every reachable state has at most one active
ticket per user does not hold, since `reopen_ticket` can move a second
ticket of the same user back into the active partition. -/
theorem c1_create_rejects_duplicate (d : TicketData) (u issue ca : String)
    (ch : Option Nat) (h : hasActiveTicketFor d u = true) :
    create_ticket d u issue ca ch = (d, TicketMsg.duplicateActive) :=
  create_ticket_dup d u issue ca ch h

/-- C1 witness: user "A" owns active `ticket-1`, and a second create for
"A" is rejected leaving the registry untouched. -/
theorem c1_create_rejects_duplicate_witness :
    hasActiveTicketFor sampleActive "A" = true ∧
    create_ticket sampleActive "A" "another issue" "t9" (some 102) =
      (sampleActive, TicketMsg.duplicateActive) :=
  ⟨by decide, c1_create_rejects_duplicate sampleActive "A" "another issue" "t9" (some 102)
    (by decide)⟩

/-- C2: in every reachable registry state no ticket id is in both
partitions; a successful close moves exactly the record of `tid` from
active to closed, a successful reopen moves it back, a successful delete
removes it from closed, and every other key's entry in both partitions is
untouched by these operations. -/
theorem c2_partition_invariant :
    (∀ d : TicketData, TicketReachable d → ∀ k : String,
        ¬((d.active_tickets.lookup k).isSome = true ∧
          (d.closed_tickets.lookup k).isSome = true)) ∧
    (∀ (chans : List Nat) (d : TicketData) (a : Nat) (tid now : String) (t : TicketRecord),
        d.active_tickets.lookup tid = some t → t.channel_id ∈ chans →
        (close_ticket chans d a tid now).1.active_tickets.lookup tid = none ∧
        (close_ticket chans d a tid now).1.closed_tickets.lookup tid =
          some { t with status := "closed", closed_by := some a, closed_at := some now } ∧
        (∀ k, k ≠ tid →
          (close_ticket chans d a tid now).1.active_tickets.lookup k =
            d.active_tickets.lookup k ∧
          (close_ticket chans d a tid now).1.closed_tickets.lookup k =
            d.closed_tickets.lookup k)) ∧
    (∀ (chans : List Nat) (d : TicketData) (a : Nat) (tid now : String) (t : TicketRecord),
        d.closed_tickets.lookup tid = some t → t.channel_id ∈ chans →
        (reopen_ticket chans d a tid now).1.closed_tickets.lookup tid = none ∧
        (reopen_ticket chans d a tid now).1.active_tickets.lookup tid =
          some { t with status := "open", reopened_by := some a, reopened_at := some now } ∧
        (∀ k, k ≠ tid →
          (reopen_ticket chans d a tid now).1.active_tickets.lookup k =
            d.active_tickets.lookup k ∧
          (reopen_ticket chans d a tid now).1.closed_tickets.lookup k =
            d.closed_tickets.lookup k)) ∧
    (∀ (d : TicketData) (tid : String) (t : TicketRecord),
        d.closed_tickets.lookup tid = some t →
        (delete_ticket d tid).1.closed_tickets.lookup tid = none ∧
        (delete_ticket d tid).1.active_tickets = d.active_tickets ∧
        (∀ k, k ≠ tid →
          (delete_ticket d tid).1.closed_tickets.lookup k = d.closed_tickets.lookup k)) := by
  refine ⟨?_, ?_, ?_, ?_⟩
  · intro d hr k hk
    exact (reachable_inv hr).disjointKeys k hk.1 hk.2
  · intro chans d a tid now t hl hc
    rw [close_ticket_ok chans d a tid now t hl hc]
    dsimp only
    refine ⟨lookup_dictRemove_self tid d.active_tickets,
      lookup_dictInsert_self tid _ d.closed_tickets, ?_⟩
    intro k hk
    exact ⟨lookup_dictRemove_ne tid k d.active_tickets hk,
      lookup_dictInsert_ne tid k _ d.closed_tickets hk⟩
  · intro chans d a tid now t hl hc
    rw [reopen_ticket_ok chans d a tid now t hl hc]
    dsimp only
    refine ⟨lookup_dictRemove_self tid d.closed_tickets,
      lookup_dictInsert_self tid _ d.active_tickets, ?_⟩
    intro k hk
    exact ⟨lookup_dictInsert_ne tid k _ d.active_tickets hk,
      lookup_dictRemove_ne tid k d.closed_tickets hk⟩
  · intro d tid t hl
    rw [delete_ticket_ok d tid t hl]
    dsimp only
    exact ⟨lookup_dictRemove_self tid d.closed_tickets, rfl,
      fun k hk => lookup_dictRemove_ne tid k d.closed_tickets hk⟩

/-- C2 witness: closing `ticket-1` of the sample registry moves its record
from the active to the closed partition. -/
theorem c2_partition_invariant_witness :
    sampleActive.active_tickets.lookup "ticket-1" = some sampleRecord ∧
    (close_ticket [100] sampleActive 9 "ticket-1" "t2").1.active_tickets.lookup "ticket-1" =
      none :=
  ⟨by decide,
    (c2_partition_invariant.2.1 [100] sampleActive 9 "ticket-1" "t2" sampleRecord
      (by decide) (by decide)).1⟩

/-- C3: a close only reports success when the id is in the active
partition; reopen and delete only when it is in the closed partition; an
attempt from the wrong partition answers the corresponding rejection and
returns the registry unchanged; and after a successful close the ticket
sits in the closed partition and a second close of the same id is rejected
without mutation. -/
theorem c3_state_machine_guards :
    (∀ (chans : List Nat) (d : TicketData) (a : Nat) (tid now : String),
        ((close_ticket chans d a tid now).2).isSuccess = true →
        (d.active_tickets.lookup tid).isSome = true) ∧
    (∀ (chans : List Nat) (d : TicketData) (a : Nat) (tid now : String),
        ((reopen_ticket chans d a tid now).2).isSuccess = true →
        (d.closed_tickets.lookup tid).isSome = true) ∧
    (∀ (d : TicketData) (tid : String),
        ((delete_ticket d tid).2).isSuccess = true →
        (d.closed_tickets.lookup tid).isSome = true) ∧
    (∀ (chans : List Nat) (d : TicketData) (a : Nat) (tid now : String),
        d.active_tickets.lookup tid = none →
        close_ticket chans d a tid now = (d, TicketMsg.ticketNoLongerExists)) ∧
    (∀ (chans : List Nat) (d : TicketData) (a : Nat) (tid now : String),
        d.closed_tickets.lookup tid = none →
        reopen_ticket chans d a tid now = (d, TicketMsg.notClosedOrMissing)) ∧
    (∀ (d : TicketData) (tid : String),
        d.closed_tickets.lookup tid = none →
        delete_ticket d tid = (d, TicketMsg.notClosedOrMissing)) ∧
    (∀ (chans chans2 : List Nat) (d : TicketData) (a a2 : Nat) (tid now now2 : String)
        (t : TicketRecord),
        d.active_tickets.lookup tid = some t → t.channel_id ∈ chans →
        ((close_ticket chans d a tid now).1.closed_tickets.lookup tid).isSome = true ∧
        close_ticket chans2 (close_ticket chans d a tid now).1 a2 tid now2 =
          ((close_ticket chans d a tid now).1, TicketMsg.ticketNoLongerExists)) := by
  refine ⟨?_, ?_, ?_, close_ticket_notActive, reopen_ticket_notClosed,
    delete_ticket_notClosed, ?_⟩
  · intro chans d a tid now hs
    cases hl : d.active_tickets.lookup tid with
    | none =>
      rw [close_ticket_notActive chans d a tid now hl] at hs
      simp [TicketMsg.isSuccess] at hs
    | some t => simp
  · intro chans d a tid now hs
    cases hl : d.closed_tickets.lookup tid with
    | none =>
      rw [reopen_ticket_notClosed chans d a tid now hl] at hs
      simp [TicketMsg.isSuccess] at hs
    | some t => simp
  · intro d tid hs
    cases hl : d.closed_tickets.lookup tid with
    | none =>
      rw [delete_ticket_notClosed d tid hl] at hs
      simp [TicketMsg.isSuccess] at hs
    | some t => simp
  · intro chans chans2 d a a2 tid now now2 t hl hc
    rw [close_ticket_ok chans d a tid now t hl hc]
    dsimp only
    constructor
    · rw [lookup_dictInsert_self]
      rfl
    · exact close_ticket_notActive chans2 _ a2 tid now2
        (lookup_dictRemove_self tid d.active_tickets)

/-- C3 witness: the sample close/close-again run — the first close of
`ticket-1` leaves it in the closed partition and the second close is
rejected without mutation. -/
theorem c3_state_machine_guards_witness :
    sampleActive.active_tickets.lookup "ticket-1" = some sampleRecord ∧
    ((close_ticket [100] sampleActive 9 "ticket-1" "t2").1.closed_tickets.lookup
        "ticket-1").isSome = true ∧
    close_ticket [100] (close_ticket [100] sampleActive 9 "ticket-1" "t2").1 8 "ticket-1" "t3" =
      ((close_ticket [100] sampleActive 9 "ticket-1" "t2").1, TicketMsg.ticketNoLongerExists) := by
  refine ⟨by decide, ?_, ?_⟩
  · exact (c3_state_machine_guards.2.2.2.2.2.2 [100] [100] sampleActive 9 8 "ticket-1" "t2" "t3"
      sampleRecord (by decide) (by decide)).1
  · exact (c3_state_machine_guards.2.2.2.2.2.2 [100] [100] sampleActive 9 8 "ticket-1" "t2" "t3"
      sampleRecord (by decide) (by decide)).2

/-- C4: whenever a create passes the duplicate guard it allocates exactly
the previous counter plus one and names the new ticket after it; no handler
turn ever decreases the counter; close, claim, delete and reopen leave the
counter untouched; and in every reachable state the next id
`ticket-<counter+1>` is absent from both partitions, so a fresh allocation
can never reuse an id. -/
theorem c4_allocation_monotone :
    (∀ (d : TicketData) (u issue ca : String) (ch : Option Nat),
        hasActiveTicketFor d u = false →
        (create_ticket d u issue ca ch).1.ticket_counter = d.ticket_counter + 1) ∧
    (∀ (d : TicketData) (u issue ca : String) (c : Nat),
        hasActiveTicketFor d u = false →
        (create_ticket d u issue ca (some c)).2 =
          TicketMsg.createdOk (ticketIdStr (d.ticket_counter + 1))) ∧
    (∀ (d d' : TicketData), TicketStep d d' → d.ticket_counter ≤ d'.ticket_counter) ∧
    (∀ (chans : List Nat) (d : TicketData) (a : Nat) (tid now : String),
        (close_ticket chans d a tid now).1.ticket_counter = d.ticket_counter ∧
        (reopen_ticket chans d a tid now).1.ticket_counter = d.ticket_counter) ∧
    (∀ (d : TicketData) (a : Nat) (tid now : String),
        (claim_ticket d a tid now).1.ticket_counter = d.ticket_counter ∧
        (delete_ticket d tid).1.ticket_counter = d.ticket_counter) ∧
    (∀ d : TicketData, TicketReachable d →
        ticketIdStr (d.ticket_counter + 1) ∉ keysOf d.active_tickets ∧
        ticketIdStr (d.ticket_counter + 1) ∉ keysOf d.closed_tickets) := by
  refine ⟨create_ticket_counter_incr, ?_, fun d d' s => counter_le_step s, ?_, ?_, ?_⟩
  · intro d u issue ca c h
    rw [create_ticket_ok d u issue ca c h]
  · intro chans d a tid now
    exact ⟨close_ticket_counter chans d a tid now, reopen_ticket_counter chans d a tid now⟩
  · intro d a tid now
    exact ⟨claim_ticket_counter d a tid now, delete_ticket_counter d tid⟩
  · intro d hr
    exact ⟨fresh_id_not_active d (reachable_inv hr), fresh_id_not_closed d (reachable_inv hr)⟩

/-- C4 witness: on the fresh registry a create for "A" allocates counter 1
and returns the id `ticket-1`. -/
theorem c4_allocation_monotone_witness :
    hasActiveTicketFor defaultTicketData "A" = false ∧
    (create_ticket defaultTicketData "A" "billing question" "t1" (some 100)).1.ticket_counter =
      defaultTicketData.ticket_counter + 1 ∧
    (create_ticket defaultTicketData "A" "billing question" "t1" (some 100)).2 =
      TicketMsg.createdOk (ticketIdStr 1) :=
  ⟨by decide,
    c4_allocation_monotone.1 defaultTicketData "A" "billing question" "t1" (some 100) (by decide),
    c4_allocation_monotone.2.1 defaultTicketData "A" "billing question" "t1" 100 (by decide)⟩

/-- C5, counterexample: the claim says close and reopen still perform the
partition move when the backing channel is gone.  In the source both
handlers return "The ticket channel no longer exists." before touching the
record: closing active `ticket-1` with no resolvable channel leaves the
registry exactly as it was (record still active, status still "open"), and
likewise reopen on a closed record. -/
theorem c5_channel_gone_aborts_concretely :
    (sampleActive.active_tickets.lookup "ticket-1").isSome = true ∧
    close_ticket [] sampleActive 9 "ticket-1" "t2" =
      (sampleActive, TicketMsg.channelNoLongerExists) ∧
    (sampleClosedData.closed_tickets.lookup "ticket-1").isSome = true ∧
    reopen_ticket [] sampleClosedData 9 "ticket-1" "t3" =
      (sampleClosedData, TicketMsg.channelNoLongerExists) := by
  exact ⟨by decide, by decide, by decide, by decide⟩

/-- C5 (amended): when the backing channel of a ticket is unavailable,
close and reopen do not proceed on the record: they answer the
channel-unavailable rejection and leave the registry entirely unchanged
(no partition move, no field update).  Only claim and delete act on the
record without consulting the channel. -/
theorem c5_channel_gone_rejects (chans : List Nat) (d : TicketData) (a : Nat)
    (tid now : String) (t : TicketRecord) :
    (d.active_tickets.lookup tid = some t → t.channel_id ∉ chans →
      close_ticket chans d a tid now = (d, TicketMsg.channelNoLongerExists)) ∧
    (d.closed_tickets.lookup tid = some t → t.channel_id ∉ chans →
      reopen_ticket chans d a tid now = (d, TicketMsg.channelNoLongerExists)) :=
  ⟨fun hl hc => close_ticket_noChannel chans d a tid now t hl hc,
   fun hl hc => reopen_ticket_noChannel chans d a tid now t hl hc⟩

/-- C5 witness: the amended rejection at the sample registry. -/
theorem c5_channel_gone_rejects_witness :
    sampleActive.active_tickets.lookup "ticket-1" = some sampleRecord ∧
    sampleRecord.channel_id ∉ ([] : List Nat) ∧
    close_ticket [] sampleActive 9 "ticket-1" "t2" =
      (sampleActive, TicketMsg.channelNoLongerExists) :=
  ⟨by decide, by decide,
    (c5_channel_gone_rejects [] sampleActive 9 "ticket-1" "t2" sampleRecord).1
      (by decide) (by decide)⟩

/-- C6, counterexample: the claim says a failed persist makes the
operation report failure and keeps memory consistent with storage.  In the
source `_save_ticket_data` swallows the exception, so a close whose save
fails still answers the success embed while the in-memory registry has
moved the ticket and the on-disk document has not. -/
theorem c6_save_failure_still_reports_success :
    (runWithStore false sampleActive (close_ticket [100] sampleActive 9 "ticket-1" "t2")).2.2 =
      TicketMsg.closedOk "ticket-1" ∧
    (runWithStore false sampleActive (close_ticket [100] sampleActive 9 "ticket-1" "t2")).2.1 =
      sampleActive ∧
    (runWithStore false sampleActive (close_ticket [100] sampleActive 9 "ticket-1" "t2")).1 ≠
      (runWithStore false sampleActive (close_ticket [100] sampleActive 9 "ticket-1" "t2")).2.1 := by
  exact ⟨by decide, by decide, by decide⟩

/-- C6 (amended): a failing store never changes what a ticket operation
does or reports — the in-memory result and the user-visible message are
the same whether the save succeeds or not, and with an unwritable store
the on-disk document is simply left behind, so a close that reports
success leaves memory strictly ahead of storage. -/
theorem c6_save_failure_swallowed :
    (∀ (w : Bool) (disk : TicketData) (r : TicketData × TicketMsg),
        (runWithStore w disk r).1 = r.1 ∧
        (runWithStore w disk r).2.2 = r.2 ∧
        (w = false → (runWithStore w disk r).2.1 = disk)) ∧
    (∀ (chans : List Nat) (d : TicketData) (a : Nat) (tid now : String) (t : TicketRecord),
        d.active_tickets.lookup tid = some t → t.channel_id ∈ chans →
        (runWithStore false d (close_ticket chans d a tid now)).2.2 =
          TicketMsg.closedOk tid ∧
        (runWithStore false d (close_ticket chans d a tid now)).1 ≠
          (runWithStore false d (close_ticket chans d a tid now)).2.1) := by
  constructor
  · intro w disk r
    refine ⟨runWithStore_mem w disk r, runWithStore_msg w disk r, ?_⟩
    intro hw
    subst hw
    exact runWithStore_disk_unwritable disk r
  · intro chans d a tid now t hl hc
    constructor
    · rw [runWithStore_msg, close_ticket_ok chans d a tid now t hl hc]
    · intro heq
      have hmemd : (close_ticket chans d a tid now).1 = d := by
        rw [← runWithStore_mem false d (close_ticket chans d a tid now), heq,
          runWithStore_disk_unwritable d (close_ticket chans d a tid now)]
      have h4 : (close_ticket chans d a tid now).1.active_tickets.lookup tid = none := by
        rw [close_ticket_ok chans d a tid now t hl hc]
        exact lookup_dictRemove_self tid d.active_tickets
      rw [hmemd] at h4
      rw [h4] at hl
      exact Option.noConfusion hl

/-- C6 witness: the sample failed-save close reports success while memory
and disk diverge. -/
theorem c6_save_failure_swallowed_witness :
    sampleActive.active_tickets.lookup "ticket-1" = some sampleRecord ∧
    (runWithStore false sampleActive (close_ticket [100] sampleActive 9 "ticket-1" "t2")).2.2 =
      TicketMsg.closedOk "ticket-1" :=
  ⟨by decide,
    (c6_save_failure_swallowed.2 [100] sampleActive 9 "ticket-1" "t2" sampleRecord
      (by decide) (by decide)).1⟩

/-- C7: for a role that still resolves in the guild, a toggle click removes
the role when the member has it and adds it otherwise; every second click
undoes the first, and any run of 2N clicks leaves the membership exactly
where it started (whether or not the role resolves — a dead role makes
every click a no-op). -/
theorem c7_toggle_roundtrip :
    (∀ (guild : List (Nat × String)) (rid : String) (n : Nat) (nm : String) (m : Finset Nat),
        parseNatId rid = some n → get_role guild n = some nm →
        (n ∈ m → button_callback guild rid m = (m.erase n, RoleToggleMsg.removedRole nm)) ∧
        (n ∉ m → button_callback guild rid m = (insert n m, RoleToggleMsg.addedRole nm))) ∧
    (∀ (guild : List (Nat × String)) (rid : String) (m : Finset Nat),
        toggleStateFn guild rid (toggleStateFn guild rid m) = m) ∧
    (∀ (guild : List (Nat × String)) (rid : String) (m : Finset Nat) (N : Nat),
        (toggleStateFn guild rid)^[2 * N] m = m) := by
  refine ⟨?_, toggleStateFn_involutive, toggleStateFn_iterate_two_mul⟩
  intro guild rid n nm m h1 h2
  constructor
  · intro hm
    simp [button_callback, h1, h2, hm]
  · intro hm
    simp [button_callback, h1, h2, hm]

/-- C7 witness: in a guild holding role 7 ("Blue"), clicking twice from a
membership that has the role removes it and then restores it. -/
theorem c7_toggle_roundtrip_witness :
    parseNatId "7" = some 7 ∧ get_role sampleGuild 7 = some "Blue" ∧ 7 ∈ ({7} : Finset Nat) ∧
    button_callback sampleGuild "7" {7} =
      (({7} : Finset Nat).erase 7, RoleToggleMsg.removedRole "Blue") ∧
    toggleStateFn sampleGuild "7" (toggleStateFn sampleGuild "7" {7}) = {7} :=
  ⟨by decide, by decide, by decide,
    (c7_toggle_roundtrip.1 sampleGuild "7" 7 "Blue" {7} (by decide) (by decide)).1 (by decide),
    c7_toggle_roundtrip.2.1 sampleGuild "7" {7}⟩

/-- C8: claim on an active ticket answers the claimed embed, overwrites
only `claimed_by`/`claimed_at` in place (partition, counter, the record's
status and every other ticket untouched), has no re-claim guard — a second
claim by another staff member simply overwrites both fields — and claim on
an id not in the active partition is rejected with no mutation. -/
theorem c8_claim_overwrites :
    (∀ (d : TicketData) (a b : Nat) (tid now now2 : String) (t : TicketRecord),
        d.active_tickets.lookup tid = some t →
        (claim_ticket d a tid now).2 = TicketMsg.claimedOk tid ∧
        (claim_ticket d a tid now).1.active_tickets.lookup tid =
          some { t with claimed_by := some a, claimed_at := some now } ∧
        (claim_ticket d a tid now).1.closed_tickets = d.closed_tickets ∧
        (claim_ticket d a tid now).1.ticket_counter = d.ticket_counter ∧
        ({ t with claimed_by := some a, claimed_at := some now } : TicketRecord).status =
          t.status ∧
        (∀ k, k ≠ tid → (claim_ticket d a tid now).1.active_tickets.lookup k =
          d.active_tickets.lookup k) ∧
        (claim_ticket (claim_ticket d a tid now).1 b tid now2).1.active_tickets.lookup tid =
          some { t with claimed_by := some b, claimed_at := some now2 }) ∧
    (∀ (d : TicketData) (a : Nat) (tid now : String),
        d.active_tickets.lookup tid = none →
        claim_ticket d a tid now = (d, TicketMsg.ticketNoLongerExists)) := by
  refine ⟨?_, claim_ticket_notActive⟩
  intro d a b tid now now2 t hl
  rw [claim_ticket_ok d a tid now t hl]
  dsimp only
  refine ⟨rfl, lookup_dictInsert_self tid _ d.active_tickets, rfl, rfl, rfl,
    fun k hk => lookup_dictInsert_ne tid k _ d.active_tickets hk, ?_⟩
  have hl2 : ({ d with
      active_tickets := dictInsert tid
        { t with claimed_by := some a, claimed_at := some now }
        d.active_tickets } : TicketData).active_tickets.lookup tid =
      some { t with claimed_by := some a, claimed_at := some now } :=
    lookup_dictInsert_self tid _ d.active_tickets
  rw [claim_ticket_ok _ b tid now2 _ hl2]
  exact lookup_dictInsert_self tid _ _

/-- C8 witness: staff 9 claims sample `ticket-1`, then staff 8 claims it
again and overwrites the claim fields. -/
theorem c8_claim_overwrites_witness :
    sampleActive.active_tickets.lookup "ticket-1" = some sampleRecord ∧
    (claim_ticket (claim_ticket sampleActive 9 "ticket-1" "t5").1 8 "ticket-1"
        "t6").1.active_tickets.lookup "ticket-1" =
      some { sampleRecord with claimed_by := some 8, claimed_at := some "t6" } :=
  ⟨by decide,
    (c8_claim_overwrites.1 sampleActive 9 8 "ticket-1" "t5" "t6" sampleRecord
      (by decide)).2.2.2.2.2.2⟩

/-- C9: a successful reopen mutates only the record's status (set to
"open"), `reopened_by` and `reopened_at`, and the partition the record
lives in; `user_id`, `channel_id`, `issue`, `created_at`,
`claimed_by`/`claimed_at` and `closed_by`/`closed_at` are carried over
verbatim — in particular the close markers are never cleared, so the
reopened active record still carries them. -/
theorem c9_reopen_frame (chans : List Nat) (d : TicketData) (a : Nat) (tid now : String)
    (t : TicketRecord) (hl : d.closed_tickets.lookup tid = some t)
    (hc : t.channel_id ∈ chans) :
    (reopen_ticket chans d a tid now).2 = TicketMsg.reopenedOk tid ∧
    (reopen_ticket chans d a tid now).1.active_tickets.lookup tid =
      some { t with status := "open", reopened_by := some a, reopened_at := some now } ∧
    ({ t with status := "open", reopened_by := some a, reopened_at := some now } :
        TicketRecord).user_id = t.user_id ∧
    ({ t with status := "open", reopened_by := some a, reopened_at := some now } :
        TicketRecord).channel_id = t.channel_id ∧
    ({ t with status := "open", reopened_by := some a, reopened_at := some now } :
        TicketRecord).issue = t.issue ∧
    ({ t with status := "open", reopened_by := some a, reopened_at := some now } :
        TicketRecord).created_at = t.created_at ∧
    ({ t with status := "open", reopened_by := some a, reopened_at := some now } :
        TicketRecord).claimed_by = t.claimed_by ∧
    ({ t with status := "open", reopened_by := some a, reopened_at := some now } :
        TicketRecord).claimed_at = t.claimed_at ∧
    ({ t with status := "open", reopened_by := some a, reopened_at := some now } :
        TicketRecord).closed_by = t.closed_by ∧
    ({ t with status := "open", reopened_by := some a, reopened_at := some now } :
        TicketRecord).closed_at = t.closed_at ∧
    ({ t with status := "open", reopened_by := some a, reopened_at := some now } :
        TicketRecord).status = "open" ∧
    ({ t with status := "open", reopened_by := some a, reopened_at := some now } :
        TicketRecord).reopened_by = some a ∧
    ({ t with status := "open", reopened_by := some a, reopened_at := some now } :
        TicketRecord).reopened_at = some now := by
  rw [reopen_ticket_ok chans d a tid now t hl hc]
  exact ⟨rfl, lookup_dictInsert_self tid _ d.active_tickets, rfl, rfl, rfl, rfl, rfl, rfl,
    rfl, rfl, rfl, rfl, rfl⟩

/-- C9 witness: reopening sample closed `ticket-1` yields an active record
that still carries `closed_by = 9` from the earlier close. -/
theorem c9_reopen_frame_witness :
    sampleClosedData.closed_tickets.lookup "ticket-1" = some sampleRecordClosed ∧
    sampleRecordClosed.channel_id ∈ [100] ∧
    (reopen_ticket [100] sampleClosedData 9 "ticket-1" "t3").1.active_tickets.lookup
        "ticket-1" =
      some { sampleRecordClosed with
        status := "open", reopened_by := some 9, reopened_at := some "t3" } ∧
    ({ sampleRecordClosed with
        status := "open", reopened_by := some 9, reopened_at := some "t3" } :
      TicketRecord).closed_by = some 9 :=
  ⟨by decide, by decide,
    (c9_reopen_frame [100] sampleClosedData 9 "ticket-1" "t3" sampleRecordClosed
      (by decide) (by decide)).2.1,
    by decide⟩

/-- C10: the button panel renders one toggle control per stored role — the
guild is not consulted — while the menu panel keeps an option only for
roles that still resolve at render time; hence a category holding a
deleted role renders strictly fewer menu options than buttons, and the
extra button answers "Role not found" on every click. -/
theorem c10_button_menu_divergence :
    (∀ rolesData : List RoleEntry,
        (reactionRoleViewButtons rolesData).length = rolesData.length) ∧
    (∀ (rolesData : List RoleEntry) (e : RoleEntry), e ∈ rolesData →
        ({ emoji := e.emoji.raw,
           customId := "reaction_role:" ++ e.emojiKey ++ ":" ++ e.roleId } : PanelButton) ∈
          reactionRoleViewButtons rolesData) ∧
    (∀ (guild : List (Nat × String)) (rolesData : List RoleEntry) (o : SelectOptionData),
        o ∈ reactionRoleSelectOptions guild rolesData →
        ∃ e ∈ rolesData, ∃ nm, resolveRoleId guild e.roleId = some nm ∧
          o = { label := nm, description := "Add or remove the role " ++ nm
                emoji := e.emoji.raw, value := e.emojiKey ++ ":" ++ e.roleId }) ∧
    (∀ (guild : List (Nat × String)) (rolesData : List RoleEntry) (e : RoleEntry),
        e ∈ rolesData → resolveRoleId guild e.roleId = none →
        (reactionRoleSelectOptions guild rolesData).length <
          (reactionRoleViewButtons rolesData).length ∧
        (∀ m : Finset Nat, button_callback guild e.roleId m = (m, RoleToggleMsg.roleGone))) := by
  refine ⟨?_, ?_, ?_, ?_⟩
  · intro rolesData
    simp [reactionRoleViewButtons]
  · intro rolesData e he
    exact List.mem_map.mpr ⟨e, he, rfl⟩
  · intro guild rolesData o ho
    obtain ⟨e, he, hsome⟩ := List.mem_filterMap.mp ho
    cases hr : resolveRoleId guild e.roleId with
    | none => rw [hr] at hsome; simp at hsome
    | some nm =>
      rw [hr] at hsome
      simp only [Option.some.injEq] at hsome
      exact ⟨e, he, nm, hr, hsome.symm⟩
  · intro guild rolesData e he hnone
    constructor
    · have hb : (reactionRoleViewButtons rolesData).length = rolesData.length := by
        simp [reactionRoleViewButtons]
      rw [hb]
      refine length_filterMap_lt_of_mem_none _ rolesData e he ?_
      simp [hnone]
    · intro m
      cases hp : parseNatId e.roleId with
      | none => simp [button_callback, hp]
      | some n =>
        have hg : get_role guild n = none := by
          simp only [resolveRoleId, hp] at hnone
          exact hnone
        simp [button_callback, hp, hg]

/-- C10 witness: the sample category stores a live role 7 and a deleted
role 8; its menu renders strictly fewer options than its button panel, and
clicking the dead role's button reports it gone without touching the
member. -/
theorem c10_button_menu_divergence_witness :
    sampleDeadEntry ∈ sampleRolesData ∧
    resolveRoleId sampleGuild sampleDeadEntry.roleId = none ∧
    (reactionRoleSelectOptions sampleGuild sampleRolesData).length <
      (reactionRoleViewButtons sampleRolesData).length ∧
    button_callback sampleGuild sampleDeadEntry.roleId {7} = ({7}, RoleToggleMsg.roleGone) :=
  ⟨by decide, by decide,
    (c10_button_menu_divergence.2.2.2 sampleGuild sampleRolesData sampleDeadEntry
      (by decide) (by decide)).1,
    (c10_button_menu_divergence.2.2.2 sampleGuild sampleRolesData sampleDeadEntry
      (by decide) (by decide)).2 {7}⟩

end Snub
